import Mathlib

/-!
Shallow embedding of the Matrix Python client library:

* `keymaster.py` — the `Keymaster` store client (GET/PUT/DEL round trips over
  a request channel with a 5-second timeout) and its subscriber worker thread
  (control commands SUBSCRIBE/UNSUBSCRIBE/UNSUBSCRIBE_ALL/QUIT/PING plus
  notification dispatch through a callback registry);
* `architect.py` — the `Architect` mode controller built on the store client.

Machine/remote effects are made explicit parameters: the store's reply to a
request is an `Option KmReply` (`none` models the 5000 ms poll timeout), the
result of an underlying `put` is a `Bool` parameter, and the worker loop is a
function from an initial worker state and a list of incoming events (control
commands and notifications) to a final state, the replies sent on the control
pipe, and the list of callback invocations performed.
-/

namespace MatrixClient

/-- Python truthiness of an optional string, as used by the list comprehension
`[p for p in [cmd, key, val, flag] if p]` in `Keymaster._call_keymaster`:
`None` and the empty string are falsy, every other string is truthy. -/
def pyTruthy : Option String → Bool
  | none => false
  | some s => !(s == "")

/-- Multi-part request assembly of `Keymaster._call_keymaster`:
`parts = [p for p in [cmd, key, val, flag] if p]`. -/
def call_parts (cmd key : String) (val flag : Option String) : List String :=
  ([some cmd, some key, val, flag].filter pyTruthy).filterMap id

/-- Specification-side formulation of the wire discipline, written from the
spec words: the parts present are exactly the non-empty elements among
{command, key, serialized-value, flag}, in that order. To be compared with
`call_parts`, which is translated from the code. -/
def nonempty_elems (l : List (Option String)) : List String :=
  (l.filterMap id).filter (fun s => !(s == ""))

/-- Reply structure from the Keymaster server, as the client reads it after
`yaml.load(response)`: fields `key`, `result`, `err`, `node`. The `node`
payload is modelled as a YAML mapping (association list); the empty mapping
`[]` stands for the Python `{}`. -/
structure KmReply where
  key : String
  result : Bool
  err : String
  node : List (String × String)
deriving Repr, DecidableEq

/-- Synthesized reply returned by `Keymaster._call_keymaster` when
`km.poll(5000)` reports no data within the 5-second window. -/
def timeout_reply (key : String) : KmReply :=
  { key := key
    result := false
    err := "Time-out when talking to Keymaster."
    node := [] }

/-- Model of `Keymaster._call_keymaster`: builds the multi-part request and
either returns the store's reply (when one arrives before the 5000 ms poll
expires, modelled by `response = some r`) or synthesizes the timeout reply
(`response = none`). The returned pair is (parts sent, reply seen by caller). -/
def call_keymaster (cmd key : String) (val flag : Option String)
    (response : Option KmReply) : List String × KmReply :=
  (call_parts cmd key val flag,
   match response with
   | some r => r
   | none => timeout_reply key)

/-- Model of `yaml.dump`: serialization of a value. Its only property used by
the client is that the serialized form is never the empty string (real
`yaml.dump` always emits at least a trailing newline). -/
def yaml_dump (v : String) : String :=
  v ++ "\n"

/-- `Keymaster.get`: returns `reply['node']` when `reply['result']` is truthy,
the empty mapping otherwise. -/
def get (key : String) (response : Option KmReply) : List (String × String) :=
  let reply := (call_keymaster "GET" key none none response).2
  if reply.result then reply.node else []

/-- `Keymaster.put`: sends PUT with the serialized value and the flag
`"create"` when `create` is true, the empty string otherwise, and returns
`reply['result']`. -/
def put (key : String) (value : String) (create : Bool)
    (response : Option KmReply) : Bool :=
  ((call_keymaster "PUT" key (some (yaml_dump value))
      (some (if create then "create" else "")) response).2).result

/-- List of wire parts actually sent by `Keymaster.put`. -/
def put_parts (key : String) (value : String) (create : Bool) : List String :=
  call_parts "PUT" key (some (yaml_dump value))
    (some (if create then "create" else ""))

/-- `Keymaster.delete`: sends DEL and returns the raw reply. -/
def delete (key : String) (response : Option KmReply) : KmReply :=
  (call_keymaster "DEL" key none none response).2

/-- User callback: a two-argument function of (key, deserialized payload).
The payload domain is the notification's YAML text (deserialization is
modelled as the identity on it). `Except.error e` models the callback raising
exception `e`; `Except.ok ()` models a normal return. -/
def Callback : Type :=
  String → String → Except String Unit

/-- State of the subscriber worker thread (`Keymaster.subscriber_task`):
`callbacks` is the Python dict `self._callbacks` (an association list with at
most one entry per key, looked up by first match), `subscribed` the list of
topic filters currently armed on the SUB socket via
`setsockopt(zmq.SUBSCRIBE, ...)`, and `end_thread` the loop-termination
flag `self.end_thread`. -/
structure WorkerState where
  callbacks : List (String × Callback)
  subscribed : List String
  end_thread : Bool

/-- Reply sent back on the control pipe: a two-part status/message reply, or
a single-part status (QUIT, PING). -/
inductive Reply where
  | pair (status : Bool) (msg : String)
  | single (status : Bool)
deriving Repr, DecidableEq

/-- Control commands received over the worker's inproc pipe. The SUBSCRIBE
command carries only the key: the callback itself is never sent to the worker
(the `fcb = pipe.recv_pyobj()` line in the source is commented out). -/
inductive ControlMsg where
  | subscribeCmd (key : String)
  | unsubscribeCmd (key : String)
  | unsubscribeAllCmd
  | quitCmd
  | pingCmd

/-- One input to the worker's poll loop: either a control command on the
pipe, or a multicast message on the SUB socket whose first part is the topic
key and whose optional second part is the YAML payload (`len(msg) > 1`). -/
inductive WorkerEvent where
  | control (c : ControlMsg)
  | notif (key : String) (payload : Option String)

/-- Worker handling of the SUBSCRIBE control command (lines 98-107 of
`keymaster.py`): the empty key is rewritten to `"Root"`, the filter is armed
on the SUB socket, and the reply is `True` followed by the (rewritten) key.
The callback registry is not touched here. -/
def handle_subscribe_cmd (st : WorkerState) (key : String) :
    WorkerState × Bool × String :=
  let key1 := if key == "" then "Root" else key
  ({ st with subscribed := key1 :: st.subscribed }, true, key1)

/-- Worker handling of the UNSUBSCRIBE control command (lines 109-120): if
the key is registered, disarm its filter, pop it from the registry and reply
success; otherwise reply failure and leave everything unchanged. -/
def handle_unsubscribe_cmd (st : WorkerState) (key : String) :
    WorkerState × Bool × String :=
  if (st.callbacks.lookup key).isSome then
    ({ st with
        subscribed := st.subscribed.erase key
        callbacks := st.callbacks.eraseP (fun p => p.1 == key) },
     true, "\x27" ++ key ++ "\x27 unsubscribed.")
  else
    (st, false, "\x27" ++ key ++ "\x27: No such key is subscribed.")

/-- Worker handling of the UNSUBSCRIBE_ALL control command (lines 122-131):
disarm the filter of every registered key, clear the registry, and reply with
the list of cleared keys. -/
def handle_unsubscribe_all_cmd (st : WorkerState) :
    WorkerState × Bool × String :=
  ({ st with
      subscribed := st.callbacks.foldl (fun subs p => subs.erase p.1) st.subscribed
      callbacks := [] },
   true, "Keys cleared: " ++ String.intercalate ", " (st.callbacks.map Prod.fst))

/-- One iteration of the worker loop body on a single ready event, translated
from `subscriber_task.run`. `Except.error e` models an exception propagating
out of the loop body (only a callback can raise here); `Except.ok` carries the
new state, the replies sent on the pipe, and the callback invocations
performed (key, payload). -/
def stepEvent (st : WorkerState) (e : WorkerEvent) :
    Except String (WorkerState × List Reply × List (String × String)) :=
  match e with
  | .control c =>
    match c with
    | .subscribeCmd key =>
      let (st1, b, m) := handle_subscribe_cmd st key
      .ok (st1, [.pair b m], [])
    | .unsubscribeCmd key =>
      let (st1, b, m) := handle_unsubscribe_cmd st key
      .ok (st1, [.pair b m], [])
    | .unsubscribeAllCmd =>
      let (st1, b, m) := handle_unsubscribe_all_cmd st
      .ok (st1, [.pair b m], [])
    | .quitCmd =>
      .ok ({ st with end_thread := true }, [.single true], [])
    | .pingCmd =>
      .ok (st, [.single true], [])
  | .notif key payload =>
    match payload with
    | none => .ok (st, [], [])
    | some p =>
      match st.callbacks.lookup key with
      | none => .ok (st, [], [])
      | some cb =>
        match cb key p with
        | .ok _ => .ok (st, [], [(key, p)])
        | .error err => .error err

/-- Outcome of running the worker loop on a list of events. -/
structure RunResult where
  finalState : WorkerState
  replies : List Reply
  delivered : List (String × String)

/-- The worker's wait loop (`while not self.end_thread`), run over a list of
incoming events. A callback exception propagates out of the loop into the
bare `except:` clause, which sets `end_thread` and abandons the loop, so the
remaining events are not processed and produce no replies or deliveries. -/
def runLoop : WorkerState → List WorkerEvent → RunResult
  | st, [] => ⟨st, [], []⟩
  | st, e :: es =>
    if st.end_thread then ⟨st, [], []⟩
    else
      match stepEvent st e with
      | .ok (st1, rs, ds) =>
        let r := runLoop st1 es
        ⟨r.finalState, rs ++ r.replies, ds ++ r.delivered⟩
      | .error _ => ⟨{ st with end_thread := true }, [], []⟩

/-- `Keymaster.subscribe`, the caller-thread side. Inputs model the
out-of-band effects: `km` is the current subscriber-task state (`none` when
`self._sub_task` does not exist yet, in which case a fresh task with an empty
registry is started), `keyExists` is the truthiness of `self.get(key)`, and
`cbArity` is the arity reported by `inspect.getargspec` (`none` when the
callback object is not a function). On the success path the caller thread
itself writes the (key, callback) entry into the task's registry and then
performs the synchronous SUBSCRIBE exchange with the worker. -/
def km_subscribe (km : Option WorkerState) (keyExists : Bool) (key : String)
    (cbArity : Option Nat) (cb : Callback) :
    Option WorkerState × (Bool × String) :=
  if !keyExists then
    (km, (false, "\x27" ++ key ++ "\x27 does not exist on the Keymaster."))
  else
    match cbArity with
    | none => (km, (false, "Callback object is not a function!"))
    | some n =>
      if n != 2 then (km, (false, "Callback function must take 2 arguments"))
      else
        let st := km.getD { callbacks := [], subscribed := [], end_thread := false }
        if (st.callbacks.lookup key).isSome then
          (some st, (false, "\x27" ++ key ++ "\x27 is already registered for a callback."))
        else
          let st1 := { st with callbacks := st.callbacks ++ [(key, cb)] }
          let (st2, rval, msg) := handle_subscribe_cmd st1 key
          (some st2, (rval, msg))

/-- `Keymaster.unsubscribe`, the caller-thread side: fails when no subscriber
task is running, otherwise performs the synchronous UNSUBSCRIBE exchange. -/
def km_unsubscribe (km : Option WorkerState) (key : String) :
    Option WorkerState × (Bool × String) :=
  match km with
  | some st =>
    let (st1, b, m) := handle_unsubscribe_cmd st key
    (some st1, (b, m))
  | none => (none, (false, "No subscriber thread running!"))

/-- One entry of the components map fetched from the store: the fields of
`comps[i]` that `Architect` reads. -/
structure Component where
  state : String
  active : Bool

/-- `Architect.check_all_in_state`: collect the `state` field of every
component marked `active` in the fetched components map and test that all of
them equal the requested state (vacuously true when none is active). The
components map is a dict, modelled as an association list of (name, entry). -/
def check_all_in_state (comps : List (String × Component)) (state : String) : Bool :=
  ((comps.filter (fun c => c.2.active)).map (fun c => c.2.state)).all
    (fun x => x == state)

/-- Loop of `Architect.wait_all_in_state`, with time in 100 ms ticks:
`remaining` is the number of further polls allowed after the current one.
At each iteration the components map is fetched anew (`getComps i` is the
map returned by `keymaster.get` at poll number `i`); a successful check
returns true immediately, and when the poll budget is exhausted the loop
breaks returning false. -/
def wait_all_in_state_aux (getComps : Nat → List (String × Component))
    (statename : String) : Nat → Nat → Bool
  | 0, i => check_all_in_state (getComps i) statename
  | remaining + 1, i =>
    if check_all_in_state (getComps i) statename then true
    else wait_all_in_state_aux getComps statename remaining (i + 1)

/-- `Architect.wait_all_in_state`: polls every 100 ms (`time.sleep(0.1)`,
`total_wait_time += 0.1`) until all active components are in `statename` or
the accumulated wait exceeds the timeout. `timeout_tenths` is the timeout
expressed in 100 ms ticks; the first check happens before any sleep, and
after a failed check at accumulated wait `i/10` seconds the loop breaks once
`(i+1)/10` exceeds the timeout, so checks happen at polls `0..timeout_tenths`.
(The source accumulates the float `0.1`; time is modelled here in exact
tenths of a second.) -/
def wait_all_in_state (getComps : Nat → List (String × Component))
    (statename : String) (timeout_tenths : Nat) : Bool :=
  wait_all_in_state_aux getComps statename timeout_tenths 0

/-- `Architect.send_event`: writes the event to the fixed key
`architect.control.command` through the Keymaster client and returns `True`,
discarding the boolean result of the put. `put_fn` models
`self._keymaster.put` restricted to the arguments used here. -/
def send_event (put_fn : String → String → Bool) (event : String) : Bool :=
  let _rval := put_fn "architect.control.command" event
  true

/-- `Architect.set_system_mode`: `arch_state` is
`self._architect['control']['state']`, `modes` the list of keys of the
`connections` section (`get_system_modes()`), and `put_result` the boolean
outcome of `self._keymaster.put("architect.control.configuration", mode)`.
The second component records the write performed on the store: `none` when no
put was issued, `some (key, value)` when one was. -/
def set_system_mode (arch_state : String) (modes : List String)
    (put_result : Bool) (mode : String) :
    (Bool × String) × Option (String × String) :=
  if arch_state != "Standby" then
    ((false,
      "System state must be \x27Standby\x27 for this operation. It is currently \x27"
        ++ arch_state ++ "\x27"),
     none)
  else if !(modes.contains mode) then
    ((false, "Unknown mode \x27" ++ mode ++ "\x27"), none)
  else if !put_result then
    ((false, "Could not change mode, Keymaster error."),
     some ("architect.control.configuration", mode))
  else
    ((true, mode), some ("architect.control.configuration", mode))

/-- Concrete callback that returns normally on every invocation. -/
def cbOk : Callback := fun _ _ => .ok ()

/-- Concrete callback that raises on every invocation. -/
def cbBoom : Callback := fun _ _ => .error "boom"

/-- Concrete worker state with a raising callback registered on key `"a"` and
a well-behaved one on key `"b"`. -/
def boomState : WorkerState :=
  ⟨[("a", cbBoom), ("b", cbOk)], ["a", "b"], false⟩

/-- Concrete worker state with the well-behaved callback registered on both
`"a"` and `"b"`. -/
def okState : WorkerState :=
  ⟨[("a", cbOk), ("b", cbOk)], ["a", "b"], false⟩

theorem filter_pyTruthy_filterMap (l : List (Option String)) :
    (l.filter pyTruthy).filterMap id = nonempty_elems l := by
  induction l with
  | nil => rfl
  | cons a t ih =>
    cases a with
    | none => simpa [nonempty_elems, pyTruthy] using ih
    | some s =>
      simp only [nonempty_elems, List.filter, List.filterMap, pyTruthy] at *
      cases h : (s == "") <;> simp [h] at * <;> simpa [h] using ih

theorem yaml_dump_ne_empty (v : String) : yaml_dump v ≠ "" := by
  intro h
  have hlen := congrArg String.length h
  have h1 : ("\n" : String).length = 1 := rfl
  simp [yaml_dump, String.length_append, h1] at hlen

theorem call_parts_empty_flag (cmd key : String) (val : Option String) :
    call_parts cmd key val (some "") = call_parts cmd key val none := by
  have h1 : [some cmd, some key, val, some ""]
      = [some cmd, some key, val] ++ [some ""] := rfl
  have h2 : [some cmd, some key, val, (none : Option String)]
      = [some cmd, some key, val] ++ [none] := rfl
  rw [call_parts, call_parts, h1, h2, List.filter_append, List.filter_append]
  simp [pyTruthy]

/-- C3: on a request-channel timeout (`response = none`) the client does not
raise: `_call_keymaster` synthesizes a structured failure reply with
`result = false` and error text `"Time-out when talking to Keymaster."`, so
`get` returns an empty value, `put` returns false, and `delete` returns the
synthesized reply. -/
theorem timeout_synthesized_failure (cmd key value : String)
    (val flag : Option String) (create : Bool) :
    (call_keymaster cmd key val flag none).2.result = false
    ∧ (call_keymaster cmd key val flag none).2.err
        = "Time-out when talking to Keymaster."
    ∧ get key none = []
    ∧ put key value create none = false
    ∧ delete key none = timeout_reply key := by
  exact ⟨rfl, rfl, rfl, rfl, rfl⟩

/-- C7: the multi-part request built by `_call_keymaster` consists of exactly
the non-empty elements among (command, key, serialized-value, flag), in that
order; in particular a PUT with `create = false` passes the empty flag, which
is not sent at all — the parts coincide with those of a flagless request, and
for a non-empty key they are exactly `[PUT, key, serialized value]`. -/
theorem wire_parts_exactly_nonempty (cmd key k v : String)
    (val flag : Option String) :
    call_parts cmd key val flag = nonempty_elems [some cmd, some key, val, flag]
    ∧ put_parts k v false = call_parts "PUT" k (some (yaml_dump v)) none
    ∧ (k ≠ "" → put_parts k v false = ["PUT", k, yaml_dump v]) := by
  refine ⟨filter_pyTruthy_filterMap _, ?_, ?_⟩
  · exact call_parts_empty_flag "PUT" k (some (yaml_dump v))
  · intro hk
    have hv : (yaml_dump v == "") = false :=
      beq_eq_false_iff_ne.mpr (yaml_dump_ne_empty v)
    have hk2 : (k == "") = false := beq_eq_false_iff_ne.mpr hk
    show call_parts "PUT" k (some (yaml_dump v)) (some "") = _
    rw [call_parts_empty_flag]
    simp [call_parts, pyTruthy, hv, hk2]

theorem wire_parts_exactly_nonempty_witness :
    ("a" : String) ≠ "" ∧ put_parts "a" "x" false = ["PUT", "a", yaml_dump "x"] :=
  ⟨by decide,
   (wire_parts_exactly_nonempty "GET" "k" "a" "x" none none).2.2 (by decide)⟩

/-- C10: `Architect.send_event` returns `True` unconditionally — the boolean
result of the underlying put to the fixed key `architect.control.command` is
discarded, so the caller receives `True` even when the put reports failure on
every write. -/
theorem send_event_discards_put_result (put_fn : String → String → Bool)
    (event : String) :
    send_event put_fn event = true
    ∧ send_event (fun _ _ => false) event = true :=
  ⟨rfl, rfl⟩

/-- C8 counterexample: with state `"Standby"`, declared modes `["X"]`, and a
failing put, `set_system_mode "X"` returns
`(false, "Could not change mode, Keymaster error.")`, not `(true, "X")` as
the claim states. -/
theorem set_system_mode_put_failure_cex :
    (set_system_mode "Standby" ["X"] false "X").1
      = (false, "Could not change mode, Keymaster error.")
    ∧ (set_system_mode "Standby" ["X"] false "X").1 ≠ (true, "X") := by
  constructor
  · rfl
  · intro h
    simp [set_system_mode] at h

/-- C8 (amended): `set_system_mode` in a non-`"Standby"` state returns
`(false, message)` without issuing any put; in `"Standby"` with an undeclared
mode it returns `(false, message)` without a put; in `"Standby"` with a
declared mode it issues the put of the mode to
`architect.control.configuration` and returns `(true, mode)` when the put
succeeds, `(false, "Could not change mode, Keymaster error.")` when the put
fails. -/
theorem set_system_mode_gating (arch_state mode : String)
    (modes : List String) (put_result : Bool) :
    (arch_state ≠ "Standby" →
      set_system_mode arch_state modes put_result mode
        = ((false,
            "System state must be \x27Standby\x27 for this operation. It is currently \x27"
              ++ arch_state ++ "\x27"), none))
    ∧ (mode ∉ modes →
      set_system_mode "Standby" modes put_result mode
        = ((false, "Unknown mode \x27" ++ mode ++ "\x27"), none))
    ∧ (mode ∈ modes →
      set_system_mode "Standby" modes true mode
        = ((true, mode), some ("architect.control.configuration", mode)))
    ∧ (mode ∈ modes →
      set_system_mode "Standby" modes false mode
        = ((false, "Could not change mode, Keymaster error."),
           some ("architect.control.configuration", mode))) := by
  refine ⟨?_, ?_, ?_, ?_⟩
  · intro h; simp [set_system_mode, bne_iff_ne, h]
  · intro h; simp [set_system_mode, List.contains, h]
  · intro h; simp [set_system_mode, List.contains, h]
  · intro h; simp [set_system_mode, List.contains, h]

theorem set_system_mode_gating_witness :
    (("Running" : String) ≠ "Standby"
      ∧ set_system_mode "Running" ["X"] true "X"
          = ((false,
              "System state must be \x27Standby\x27 for this operation. It is currently \x27Running\x27"),
             none))
    ∧ (("Y" : String) ∉ (["X"] : List String)
      ∧ set_system_mode "Standby" ["X"] true "Y"
          = ((false, "Unknown mode \x27Y\x27"), none))
    ∧ (("X" : String) ∈ (["X"] : List String)
      ∧ set_system_mode "Standby" ["X"] true "X"
          = ((true, "X"), some ("architect.control.configuration", "X"))
      ∧ set_system_mode "Standby" ["X"] false "X"
          = ((false, "Could not change mode, Keymaster error."),
             some ("architect.control.configuration", "X"))) :=
  ⟨⟨by decide, (set_system_mode_gating "Running" "X" ["X"] true).1 (by decide)⟩,
   ⟨by decide, (set_system_mode_gating "Running" "Y" ["X"] true).2.1 (by decide)⟩,
   ⟨by decide, (set_system_mode_gating "Running" "X" ["X"] true).2.2.1 (by decide),
    (set_system_mode_gating "Running" "X" ["X"] false).2.2.2 (by decide)⟩⟩

/-- C6 counterexample: `get("")` does not rewrite the empty key to `"Root"`;
the empty key is simply dropped from the multi-part request, which consists
of the command alone. -/
theorem empty_key_dropped_not_rewritten_cex :
    call_parts "GET" "" none none = ["GET"]
    ∧ "Root" ∉ call_parts "GET" "" none none
    ∧ "" ∉ call_parts "GET" "" none none := by
  decide

/-- C6 (amended): the empty-string-to-`"Root"` rewrite happens only in the
worker's SUBSCRIBE handler, which arms the `"Root"` filter and replies
success with `"Root"` (non-empty keys pass through unrewritten); the
get/put/delete path instead drops empty parts from the wire message — even an
empty key in the middle of a PUT request is omitted, not rewritten. -/
theorem root_rewrite_only_in_subscribe (st : WorkerState) (key : String) :
    (handle_subscribe_cmd st "").2 = (true, "Root")
    ∧ (handle_subscribe_cmd st "").1.subscribed = "Root" :: st.subscribed
    ∧ (key ≠ "" → (handle_subscribe_cmd st key).2 = (true, key))
    ∧ call_parts "GET" "" none none = ["GET"]
    ∧ call_parts "PUT" "" (some "v") none = ["PUT", "v"] := by
  refine ⟨rfl, rfl, ?_, by decide, by decide⟩
  intro hk
  have hk2 : (key == "") = false := beq_eq_false_iff_ne.mpr hk
  simp [handle_subscribe_cmd, hk2]

theorem root_rewrite_only_in_subscribe_witness :
    ("k" : String) ≠ ""
    ∧ (handle_subscribe_cmd okState "k").2 = (true, "k")
    ∧ (handle_subscribe_cmd okState "").2 = (true, "Root") :=
  ⟨by decide,
   (root_rewrite_only_in_subscribe okState "k").2.2.1 (by decide),
   (root_rewrite_only_in_subscribe okState "k").1⟩

theorem check_all_in_state_of_no_active (comps : List (String × Component))
    (name : String) (h : ∀ c ∈ comps, c.2.active = false) :
    check_all_in_state comps name = true := by
  have hf : comps.filter (fun c => c.2.active) = [] := by
    rw [List.filter_eq_nil_iff]
    intro c hc
    simp [h c hc]
  simp [check_all_in_state, hf]

theorem wait_all_in_state_aux_true_iff (g : Nat → List (String × Component))
    (name : String) :
    ∀ rem i, wait_all_in_state_aux g name rem i = true
      ↔ ∃ j, i ≤ j ∧ j ≤ i + rem ∧ check_all_in_state (g j) name = true := by
  intro rem
  induction rem with
  | zero =>
    intro i
    constructor
    · intro h
      exact ⟨i, le_refl i, by omega, h⟩
    · rintro ⟨j, hij, hji, hc⟩
      have : j = i := by omega
      subst this
      exact hc
  | succ rem ih =>
    intro i
    by_cases h : check_all_in_state (g i) name = true
    · constructor
      · intro _
        exact ⟨i, le_refl i, by omega, h⟩
      · intro _
        simp [wait_all_in_state_aux, h]
    · have hb : check_all_in_state (g i) name = false := by
        cases hc : check_all_in_state (g i) name
        · rfl
        · exact absurd hc h
      constructor
      · intro hrun
        rw [wait_all_in_state_aux, hb] at hrun
        simp only [Bool.false_eq_true, if_false] at hrun
        obtain ⟨j, h1, h2, h3⟩ := (ih (i + 1)).mp hrun
        exact ⟨j, by omega, by omega, h3⟩
      · rintro ⟨j, h1, h2, h3⟩
        rw [wait_all_in_state_aux, hb]
        simp only [Bool.false_eq_true, if_false]
        refine (ih (i + 1)).mpr ⟨j, ?_, by omega, h3⟩
        rcases Nat.eq_or_lt_of_le h1 with rfl | hlt
        · exact absurd h3 h
        · omega

/-- C9: `Architect.wait_all_in_state` polls the components map once per 100 ms
tick and returns true exactly when at some poll `i` within the timeout window
(polls `0` through `timeout_tenths`) every active component's recorded state
equals `statename` — vacuously so when no component is active at the first
poll; when no poll inside the window ever satisfies the condition, it returns
false. -/
theorem wait_all_in_state_polls (g : Nat → List (String × Component))
    (statename : String) (timeout_tenths : Nat) :
    (wait_all_in_state g statename timeout_tenths = true
      ↔ ∃ i, i ≤ timeout_tenths ∧ check_all_in_state (g i) statename = true)
    ∧ ((∀ c ∈ g 0, c.2.active = false) →
        wait_all_in_state g statename timeout_tenths = true) := by
  constructor
  · rw [wait_all_in_state, wait_all_in_state_aux_true_iff]
    constructor
    · rintro ⟨j, _, h2, h3⟩
      exact ⟨j, by omega, h3⟩
    · rintro ⟨j, h1, h3⟩
      exact ⟨j, by omega, by omega, h3⟩
  · intro h
    rw [wait_all_in_state, wait_all_in_state_aux_true_iff]
    exact ⟨0, by omega, by omega, check_all_in_state_of_no_active _ _ h⟩

theorem wait_all_in_state_polls_witness :
    (∀ c ∈ (fun _ => ([] : List (String × Component))) 0, c.2.active = false)
    ∧ wait_all_in_state (fun _ => []) "Ready" 3 = true :=
  ⟨by simp,
   (wait_all_in_state_polls (fun _ => []) "Ready" 3).2 (by simp)⟩

theorem lookup_eq_none_iff_keys (l : List (String × Callback)) (k : String) :
    l.lookup k = none ↔ k ∉ l.map Prod.fst := by
  induction l with
  | nil => simp
  | cons a t ih =>
    simp only [List.lookup, List.map_cons, List.mem_cons]
    cases h : (k == a.1) with
    | true =>
      have hk : k = a.1 := by simpa using h
      simp [hk]
    | false =>
      have hk : ¬(k = a.1) := by simpa using h
      simp [hk, ih]

theorem lookup_none_of_sublist {l1 l2 : List (String × Callback)}
    (hs : l1.Sublist l2) {k : String} (h : l2.lookup k = none) :
    l1.lookup k = none := by
  rw [lookup_eq_none_iff_keys] at h ⊢
  intro hm
  exact h (List.Sublist.subset (hs.map Prod.fst) hm)

theorem lookup_eraseP_none {l : List (String × Callback)} {k : String}
    (q : String × Callback → Bool) (h : l.lookup k = none) :
    (l.eraseP q).lookup k = none :=
  lookup_none_of_sublist (List.eraseP_sublist l) h

theorem lookup_eraseP_self (l : List (String × Callback)) (k : String)
    (hnd : (l.map Prod.fst).Nodup) :
    (l.eraseP (fun p => p.1 == k)).lookup k = none := by
  induction l with
  | nil => rfl
  | cons a t ih =>
    simp only [List.map_cons, List.nodup_cons] at hnd
    obtain ⟨ha, ht⟩ := hnd
    cases hak : (a.1 == k) with
    | true =>
      have hk : a.1 = k := by simpa using hak
      rw [List.eraseP_cons, hak]
      simp only [cond_true]
      rw [lookup_eq_none_iff_keys]
      rw [← hk]
      exact ha
    | false =>
      have hk : ¬(k = a.1) := by
        intro h
        simp [h] at hak
      rw [List.eraseP_cons, hak]
      simp only [cond_false]
      simp only [List.lookup]
      rw [show (k == a.1) = false by simpa using hk]
      exact ih ht

theorem runLoop_no_delivery (k p : String) :
    ∀ (es : List WorkerEvent) (st : WorkerState),
      st.callbacks.lookup k = none →
      (k, p) ∉ (runLoop st es).delivered := by
  intro es
  induction es with
  | nil =>
    intro st h
    simp [runLoop]
  | cons e t ih =>
    intro st h
    cases hend : st.end_thread with
    | true => simp [runLoop, hend]
    | false =>
      cases e with
      | control c =>
        cases c with
        | subscribeCmd key =>
          simp only [runLoop, hend, Bool.false_eq_true, if_false, stepEvent,
            handle_subscribe_cmd]
          exact ih _ h
        | unsubscribeCmd key =>
          cases hk : (st.callbacks.lookup key).isSome with
          | true =>
            simp only [runLoop, hend, Bool.false_eq_true, if_false, stepEvent,
              handle_unsubscribe_cmd, hk, if_true]
            exact ih _ (lookup_eraseP_none _ h)
          | false =>
            simp only [runLoop, hend, Bool.false_eq_true, if_false, stepEvent,
              handle_unsubscribe_cmd, hk, if_false]
            exact ih _ h
        | unsubscribeAllCmd =>
          simp only [runLoop, hend, Bool.false_eq_true, if_false, stepEvent,
            handle_unsubscribe_all_cmd]
          exact ih _ rfl
        | quitCmd =>
          simp only [runLoop, hend, Bool.false_eq_true, if_false, stepEvent]
          exact ih _ h
        | pingCmd =>
          simp only [runLoop, hend, Bool.false_eq_true, if_false, stepEvent]
          exact ih _ h
      | notif key payload =>
        cases payload with
        | none =>
          simp only [runLoop, hend, Bool.false_eq_true, if_false, stepEvent]
          exact ih _ h
        | some pl =>
          cases hlk : st.callbacks.lookup key with
          | none =>
            simp only [runLoop, hend, Bool.false_eq_true, if_false, stepEvent, hlk]
            exact ih _ h
          | some cb =>
            have hne : ¬(k = key) := by
              intro hkk
              rw [← hkk, h] at hlk
              exact Option.noConfusion hlk
            cases hcb : cb key pl with
            | ok u =>
              simp only [runLoop, hend, Bool.false_eq_true, if_false, stepEvent,
                hlk, hcb, List.cons_append, List.nil_append]
              intro hmem
              rcases List.mem_cons.mp hmem with heq | hrest
              · exact hne (congrArg Prod.fst heq)
              · exact ih _ h hrest
            | error err =>
              simp [runLoop, hend, stepEvent, hlk, hcb]

/-- C1 counterexample: with a raising callback registered on key `"a"` and a
well-behaved callback on key `"b"`, a notification for `"a"` followed by one
for `"b"` terminates the worker loop (`end_thread` becomes true) and the
`"b"` notification is never delivered — whereas the same event sequence with
well-behaved callbacks delivers both. The claim that the loop keeps running
and other keys continue to be served is therefore false. -/
theorem callback_exception_stops_loop_cex :
    (runLoop boomState
        [.notif "a" (some "va"), .notif "b" (some "vb")]).finalState.end_thread
      = true
    ∧ (runLoop boomState
        [.notif "a" (some "va"), .notif "b" (some "vb")]).delivered = []
    ∧ (runLoop okState
        [.notif "a" (some "va"), .notif "b" (some "vb")]).delivered
      = [("a", "va"), ("b", "vb")] :=
  ⟨rfl, rfl, rfl⟩

/-- C1 (amended): when a registered callback raises during notification
dispatch, the exception escapes the wait loop into the blanket handler, which
sets `end_thread`; the loop terminates at that point, emitting no further
replies and delivering no further notifications — for any key, including
other subscribed keys. -/
theorem callback_exception_terminates_loop (st : WorkerState)
    (key p e : String) (cb : Callback) (es : List WorkerEvent)
    (hrun : st.end_thread = false)
    (hcb : st.callbacks.lookup key = some cb)
    (hraise : cb key p = .error e) :
    (runLoop st (.notif key (some p) :: es)).finalState
        = { st with end_thread := true }
    ∧ (runLoop st (.notif key (some p) :: es)).replies = []
    ∧ (runLoop st (.notif key (some p) :: es)).delivered = [] := by
  have hstep : stepEvent st (.notif key (some p)) = .error e := by
    simp [stepEvent, hcb, hraise]
  refine ⟨?_, ?_, ?_⟩ <;> simp [runLoop, hrun, hstep]

theorem callback_exception_terminates_loop_witness :
    boomState.end_thread = false
    ∧ boomState.callbacks.lookup "a" = some cbBoom
    ∧ cbBoom "a" "va" = Except.error "boom"
    ∧ (runLoop boomState
        [WorkerEvent.notif "a" (some "va"), WorkerEvent.notif "b" (some "vb")]).replies
      = [] :=
  ⟨rfl, rfl, rfl,
   (callback_exception_terminates_loop boomState "a" "va" "boom" cbBoom
      [WorkerEvent.notif "b" (some "vb")] rfl rfl rfl).2.1⟩

/-- C2 counterexample: after the worker processes SUBSCRIBE("a") starting
from an empty registry, the registry is still empty — the worker arms the
filter and replies success plus the key but records no (key, callback) entry
(the callback is never even sent to it), contradicting the claim that the
worker itself records the entry and that only the worker's loop touches the
registry. -/
theorem worker_subscribe_no_registry_write_cex :
    (handle_subscribe_cmd ⟨[], [], false⟩ "a").1.callbacks = []
    ∧ (([] : List (String × Callback)).lookup "a") = none
    ∧ (handle_subscribe_cmd ⟨[], [], false⟩ "a").2 = (true, "a")
    ∧ stepEvent ⟨[], [], false⟩ (.control (.subscribeCmd "a"))
        = .ok (⟨[], ["a"], false⟩, [.pair true "a"], []) :=
  ⟨rfl, rfl, rfl, rfl⟩

/-- C2 (amended): when the worker processes SUBSCRIBE(key) it arms the
notification filter for the key and replies success plus the key, but leaves
the Callback Registry untouched; the (key, callback) entry is written by the
caller's thread inside `Keymaster.subscribe` before the control command is
sent, so the registry is read and written by the caller's thread as well as
the worker's. -/
theorem subscribe_registry_written_by_caller (st st0 : WorkerState)
    (key : String) (cb : Callback)
    (hfresh : st0.callbacks.lookup key = none) :
    (handle_subscribe_cmd st key).1.callbacks = st.callbacks
    ∧ (handle_subscribe_cmd st key).2 = (true, if key == "" then "Root" else key)
    ∧ (km_subscribe (some st0) true key (some 2) cb).1
        = some { st0 with
            callbacks := st0.callbacks ++ [(key, cb)]
            subscribed := (if key == "" then "Root" else key) :: st0.subscribed }
    ∧ (km_subscribe (some st0) true key (some 2) cb).2
        = (true, if key == "" then "Root" else key) := by
  have hns : (st0.callbacks.lookup key).isSome = false := by simp [hfresh]
  refine ⟨rfl, rfl, ?_, ?_⟩ <;>
    simp [km_subscribe, hns, handle_subscribe_cmd]

theorem subscribe_registry_written_by_caller_witness :
    (([] : List (String × Callback)).lookup "k") = none
    ∧ (km_subscribe (some ⟨[], [], false⟩) true "k" (some 2) cbOk).1
        = some ⟨[("k", cbOk)], ["k"], false⟩
    ∧ (km_subscribe (some ⟨[], [], false⟩) true "k" (some 2) cbOk).2
        = (true, "k") :=
  ⟨rfl,
   (subscribe_registry_written_by_caller ⟨[], [], false⟩ ⟨[], [], false⟩
      "k" cbOk rfl).2.2.1,
   (subscribe_registry_written_by_caller ⟨[], [], false⟩ ⟨[], [], false⟩
      "k" cbOk rfl).2.2.2⟩

theorem km_subscribe_state_cases (st : WorkerState) (keyExists : Bool)
    (k : String) (arity : Option Nat) (cb : Callback) :
    (km_subscribe (some st) keyExists k arity cb).1 = some st
    ∨ ((km_subscribe (some st) keyExists k arity cb).1
        = some { st with
            callbacks := st.callbacks ++ [(k, cb)]
            subscribed := (if k == "" then "Root" else k) :: st.subscribed }
       ∧ st.callbacks.lookup k = none) := by
  cases keyExists with
  | false => left; rfl
  | true =>
    cases arity with
    | none => left; rfl
    | some n =>
      cases hn : (n != 2) with
      | true =>
        left
        simp [km_subscribe, hn]
      | false =>
        cases hlk : (st.callbacks.lookup k) with
        | some cb1 =>
          left
          simp [km_subscribe, hn, hlk]
        | none =>
          right
          refine ⟨?_, rfl⟩
          have hns : (st.callbacks.lookup k).isSome = false := by simp [hlk]
          simp [km_subscribe, hn, hns, handle_subscribe_cmd]

theorem km_subscribe_preserves_nodup (st : WorkerState) (keyExists : Bool)
    (k : String) (arity : Option Nat) (cb : Callback) (st1 : WorkerState)
    (hnd : (st.callbacks.map Prod.fst).Nodup)
    (h1 : (km_subscribe (some st) keyExists k arity cb).1 = some st1) :
    (st1.callbacks.map Prod.fst).Nodup := by
  rcases km_subscribe_state_cases st keyExists k arity cb with h | ⟨h, hfresh⟩
  · rw [h] at h1
    obtain rfl := Option.some.inj h1
    exact hnd
  · rw [h] at h1
    obtain rfl := Option.some.inj h1
    have hk : k ∉ st.callbacks.map Prod.fst :=
      (lookup_eq_none_iff_keys _ _).mp hfresh
    simp only [List.map_append, List.map_cons, List.map_nil]
    rw [List.nodup_append]
    exact ⟨hnd, List.nodup_singleton k, by simpa [List.disjoint_singleton] using hk⟩

/-- C4: subscribing a key that is already registered fails with an
explanatory message and leaves the subscriber state — in particular the
originally registered callback — entirely unchanged; and `subscribe` never
creates a second entry for a key: it preserves the at-most-one-callback-per-
key invariant (no duplicate keys in the registry). -/
theorem subscribe_duplicate_fails (st : WorkerState) (key : String)
    (cb1 cb2 : Callback)
    (hreg : st.callbacks.lookup key = some cb1) :
    km_subscribe (some st) true key (some 2) cb2
      = (some st,
         (false, "\x27" ++ key ++ "\x27 is already registered for a callback."))
    ∧ ∀ (k : String) (keyExists : Bool) (arity : Option Nat) (cb : Callback)
        (st1 : WorkerState),
        (st.callbacks.map Prod.fst).Nodup →
        (km_subscribe (some st) keyExists k arity cb).1 = some st1 →
        (st1.callbacks.map Prod.fst).Nodup := by
  constructor
  · have hs : (st.callbacks.lookup key).isSome = true := by simp [hreg]
    simp [km_subscribe, hs]
  · intro k keyExists arity cb st1 hnd h1
    exact km_subscribe_preserves_nodup st keyExists k arity cb st1 hnd h1

theorem subscribe_duplicate_fails_witness :
    okState.callbacks.lookup "a" = some cbOk
    ∧ km_subscribe (some okState) true "a" (some 2) cbBoom
        = (some okState,
           (false, "\x27a\x27 is already registered for a callback.")) :=
  ⟨rfl, (subscribe_duplicate_fails okState "a" cbOk cbBoom rfl).1⟩

/-- C5: the worker's UNSUBSCRIBE handler replies failure with an explanatory
message and leaves its state unchanged when the key is not registered; when
the key is registered it replies success, and from the resulting state no
later notification for that key — over any sequence of further events the
worker processes — invokes a callback. -/
theorem unsubscribe_guard (st : WorkerState) (key : String)
    (hnd : (st.callbacks.map Prod.fst).Nodup) :
    (st.callbacks.lookup key = none →
      handle_unsubscribe_cmd st key
        = (st, false, "\x27" ++ key ++ "\x27: No such key is subscribed."))
    ∧ (∀ cb, st.callbacks.lookup key = some cb →
        (handle_unsubscribe_cmd st key).2
            = (true, "\x27" ++ key ++ "\x27 unsubscribed.")
        ∧ ∀ (es : List WorkerEvent) (p : String),
            (key, p) ∉ (runLoop (handle_unsubscribe_cmd st key).1 es).delivered) := by
  constructor
  · intro h
    simp [handle_unsubscribe_cmd, h]
  · intro cb hcb
    have hs : (st.callbacks.lookup key).isSome = true := by simp [hcb]
    constructor
    · simp [handle_unsubscribe_cmd, hs]
    · intro es p
      apply runLoop_no_delivery
      have hcbs : (handle_unsubscribe_cmd st key).1.callbacks
          = st.callbacks.eraseP (fun q => q.1 == key) := by
        simp [handle_unsubscribe_cmd, hs]
      rw [hcbs]
      exact lookup_eraseP_self st.callbacks key hnd

theorem unsubscribe_guard_witness :
    (okState.callbacks.map Prod.fst).Nodup
    ∧ (handle_unsubscribe_cmd okState "a").2 = (true, "\x27a\x27 unsubscribed.")
    ∧ ("a", "x") ∉ (runLoop (handle_unsubscribe_cmd okState "a").1
        [WorkerEvent.notif "a" (some "x")]).delivered := by
  have hnd : (okState.callbacks.map Prod.fst).Nodup := by
    simp [okState]
  have h := (unsubscribe_guard okState "a" hnd).2 cbOk rfl
  exact ⟨hnd, h.1, h.2 [WorkerEvent.notif "a" (some "x")] "x"⟩

end MatrixClient
